/-
  Verification of the Birmingham City FC notifier bot.

  Shallow embedding of the core logic of the repository:
    * database.py   — subscriber preference store (SQLite, one row per chat_id)
    * scheduler.py  — digest dispatcher, reminder planner, goal detector,
                      lineup detector
    * football_api.py — gateway client (method surface only)

  SQLite rows are embedded as records over Int (SQLite stores the boolean
  flags as integers 0/1); the users table is a list of rows.  Times are
  embedded as integer epoch seconds; Python's `timedelta(minutes=m)` is
  `m * 60` seconds and the comparison `x.total_seconds()/60 > 60` is the
  integer comparison `x > 3600`.
-/
import Mathlib

namespace Birmingham

/-- The configured club identifier (config.example.py: BIRMINGHAM_TEAM_ID). -/
def BIRMINGHAM_TEAM_ID : Int := 332

/-! ## Preference store (database.py) -/

/-- One row of the `users` table (database.py `_init_tables`).
    `morning_notification`, `goal_notification`, `lineup_notification`
    are SQLite INTEGER columns holding 0/1. -/
structure UserRow where
  chat_id : String
  username : Option String
  morning_notification : Int
  morning_notification_hour : Int
  match_reminder_minutes : Int
  goal_notification : Int
  lineup_notification : Int
deriving Repr, DecidableEq

/-- The settable columns of the `users` table reached by the
    `update_*` functions and `toggle_setting` of database.py. -/
inductive SettingField where
  | morningNotification
  | morningNotificationHour
  | matchReminderMinutes
  | goalNotification
  | lineupNotification
deriving Repr, DecidableEq

def getSetting (u : UserRow) : SettingField → Int
  | .morningNotification => u.morning_notification
  | .morningNotificationHour => u.morning_notification_hour
  | .matchReminderMinutes => u.match_reminder_minutes
  | .goalNotification => u.goal_notification
  | .lineupNotification => u.lineup_notification

def setSetting (u : UserRow) : SettingField → Int → UserRow
  | .morningNotification, v => { u with morning_notification := v }
  | .morningNotificationHour, v => { u with morning_notification_hour := v }
  | .matchReminderMinutes, v => { u with match_reminder_minutes := v }
  | .goalNotification, v => { u with goal_notification := v }
  | .lineupNotification, v => { u with lineup_notification := v }

/-- The users table: the list of rows (chat_id is UNIQUE in the schema,
    but the embedding does not need to assume it unless stated). -/
abbrev Db := List UserRow

/-- database.py `get_user`: `SELECT * FROM users WHERE chat_id = ?`,
    `fetchone` — the first matching row, if any. -/
def get_user (db : Db) (chat_id : String) : Option UserRow :=
  db.find? (fun u => u.chat_id == chat_id)

/-- The SQL `UPDATE users SET <field> = ? WHERE chat_id = ?` together with
    `cursor.rowcount > 0`: every matching row is updated and the Bool
    records whether any row matched.  Shared shape of the five
    `update_*` functions of database.py. -/
def update_rows (db : Db) (chat_id : String) (f : SettingField) (v : Int) :
    Bool × Db :=
  (db.any (fun u => u.chat_id == chat_id),
   db.map (fun u => if u.chat_id == chat_id then setSetting u f v else u))

/-- database.py `update_morning_notification`. -/
def update_morning_notification (db : Db) (chat_id : String) (enabled : Bool) :
    Bool × Db :=
  update_rows db chat_id .morningNotification (if enabled then 1 else 0)

/-- database.py `update_morning_notification_hour`. -/
def update_morning_notification_hour (db : Db) (chat_id : String) (hour : Int) :
    Bool × Db :=
  update_rows db chat_id .morningNotificationHour hour

/-- database.py `update_match_reminder`. -/
def update_match_reminder (db : Db) (chat_id : String) (minutes : Int) :
    Bool × Db :=
  update_rows db chat_id .matchReminderMinutes minutes

/-- database.py `update_goal_notification`. -/
def update_goal_notification (db : Db) (chat_id : String) (enabled : Bool) :
    Bool × Db :=
  update_rows db chat_id .goalNotification (if enabled then 1 else 0)

/-- database.py `update_lineup_notification`. -/
def update_lineup_notification (db : Db) (chat_id : String) (enabled : Bool) :
    Bool × Db :=
  update_rows db chat_id .lineupNotification (if enabled then 1 else 0)

/-- database.py `toggle_setting`: read the user's current value
    (`user.get(setting_name, 1)` — the column always exists in the row),
    flip it Python-style (`new_value = 0 if current else 1`, truthiness of
    an int is `≠ 0`), write it back with an UPDATE on the chat_id, and
    return `bool(new_value)`.  If no such user exists, return False
    without touching the store. -/
def toggle_setting (db : Db) (chat_id : String) (f : SettingField) :
    Bool × Db :=
  match get_user db chat_id with
  | none => (false, db)
  | some user =>
    let current := getSetting user f
    let new_value : Int := if current ≠ 0 then 0 else 1
    (new_value ≠ 0,
     db.map (fun u => if u.chat_id == chat_id then setSetting u f new_value else u))

/-- database.py `get_users_for_morning_notification`:
    `WHERE morning_notification = 1 AND morning_notification_hour = ?`. -/
def get_users_for_morning_notification (db : Db) (hour : Int) : List UserRow :=
  db.filter (fun u => u.morning_notification == 1 && u.morning_notification_hour == hour)

/-- database.py `get_users_for_goal_notification`: `WHERE goal_notification = 1`. -/
def get_users_for_goal_notification (db : Db) : List UserRow :=
  db.filter (fun u => u.goal_notification == 1)

/-- database.py `get_users_for_lineup_notification`: `WHERE lineup_notification = 1`. -/
def get_users_for_lineup_notification (db : Db) : List UserRow :=
  db.filter (fun u => u.lineup_notification == 1)

/-! ## Morning digest (scheduler.py `_send_morning_notification_to_user`,
    football_api.py `format_match_info`) -/

/-- A calendar date-time in Korea local time (the timezone
    `format_match_info` renders `korea_time` in). -/
structure KDate where
  year : Nat
  month : Nat
  day : Nat
  hour : Nat
  minute : Nat
deriving Repr, DecidableEq

/-- Two-digit zero padding, as Python strftime's `%m`, `%d`, `%H`, `%M`. -/
def pad2 (n : Nat) : String :=
  if n < 10 then "0" ++ toString n else toString n

/-- football_api.py `format_match_info`: the `korea_time` field is
    `dt_korea.strftime("%Y-%m-%d %H:%M")`. -/
def korea_time_string (d : KDate) : String :=
  toString d.year ++ "-" ++ pad2 d.month ++ "-" ++ pad2 d.day ++ " "
    ++ pad2 d.hour ++ ":" ++ pad2 d.minute

/-- scheduler.py `_send_morning_notification_to_user`:
    `today = now.strftime("%m/%d")` (same for `tomorrow`). -/
def strftime_md (month day : Nat) : String :=
  pad2 month ++ "/" ++ pad2 day

/-- Python slice `s[:5]`. -/
def slice5 (s : String) : String := s.take 5

/-- Python `korea_time[6:11] if len(korea_time) >= 11 else ""`. -/
def slice6_11 (s : String) : String :=
  if 11 ≤ s.length then (s.drop 6).take 5 else ""

/-- The per-match filter of `_send_morning_notification_to_user`
    (scheduler.py lines 122-133): `match_date = korea_time[:5]`,
    `match_time = korea_time[6:11]`, keep the match if
    `match_date == today` or
    `match_date == tomorrow and match_time < "09:00"`. -/
def morning_match_kept (today tomorrow korea_time : String) : Bool :=
  let match_date := slice5 korea_time
  let match_time := slice6_11 korea_time
  match_date == today || (match_date == tomorrow && match_time < "09:00")

/-- scheduler.py `_send_morning_notification_to_user`, digest-building part:
    `today`/`tomorrow` are `now.strftime("%m/%d")` of the current and next
    day, each match contributes its `korea_time` from `format_match_info`,
    and `today_matches` collects the kept matches.  Returns the kept
    kickoff dates (the message is sent iff this list is non-empty). -/
def build_today_matches (now_month now_day tom_month tom_day : Nat)
    (kickoffs : List KDate) : List KDate :=
  let today := strftime_md now_month now_day
  let tomorrow := strftime_md tom_month tom_day
  kickoffs.filter (fun kd => morning_match_kept today tomorrow (korea_time_string kd))

/-! ## Gateway client surface (football_api.py `FootballAPIClient`) -/

/-- The methods the class `FootballAPIClient` defines
    (football_api.py lines 12-253). -/
def footballAPIClientMethods : List String :=
  ["__init__", "_make_request", "get_upcoming_matches", "get_recent_results",
   "get_team_standing", "get_upcoming_future_matches", "format_match_info"]

/-! ## Live scores (scheduler.py `check_live_scores`, `_process_live_match`) -/

/-- A team record of a match snapshot as read by the scheduler
    (`match.get("homeTeam", {})`: `id` and `name` may be absent). -/
structure TeamRef where
  id : Option Int
  name : String
deriving Repr, DecidableEq

/-- `match.get("score", {}).get("fullTime", {})`: each side may be absent
    or JSON null — both are `none` here. -/
structure FullTimeScore where
  home : Option Int
  away : Option Int
deriving Repr, DecidableEq

/-- A live match as read by `_process_live_match`. -/
structure LiveMatch where
  id : Option Nat
  homeTeam : TeamRef
  awayTeam : TeamRef
  score : FullTimeScore
deriving Repr, DecidableEq

/-- Python `score.get("home", 0) or 0`: an absent or null value gives 0
    via the default, and a falsy 0 gives 0 via `or`. -/
def pyOr0 : Option Int → Int
  | none => 0
  | some v => if v = 0 then 0 else v

/-- One goal notification as produced by `_send_goal_notification`. -/
structure GoalNotif where
  chat_id : String
  home_name : String
  away_name : String
  home_score : Int
  away_score : Int
  scoring_team : String
  is_birmingham_goal : Bool
deriving Repr, DecidableEq

/-- The detector's `_live_scores` dict: match id ↦ last observed score. -/
def LiveScores := Nat → Option (Int × Int)

/-- scheduler.py `_process_live_match`: compare the observed score with
    the stored one (default `{"home": 0, "away": 0}`), on an increase of
    either side send one notification to every user in `users` (home side
    takes precedence), then unconditionally overwrite the stored entry.
    A falsy match id (`if not match_id: return`) is a no-op. -/
def process_live_match (m : LiveMatch) (users : List UserRow)
    (st : LiveScores) : List GoalNotif × LiveScores :=
  match m.id with
  | none => ([], st)
  | some match_id =>
    if match_id = 0 then ([], st)
    else
      let home_score := pyOr0 m.score.home
      let away_score := pyOr0 m.score.away
      let prev := (st match_id).getD (0, 0)
      let notifs :=
        if home_score > prev.1 ∨ away_score > prev.2 then
          let scoring_team :=
            if home_score > prev.1 then m.homeTeam.name else m.awayTeam.name
          let scoring_team_id :=
            if home_score > prev.1 then m.homeTeam.id else m.awayTeam.id
          let is_bir := scoring_team_id = some BIRMINGHAM_TEAM_ID
          users.map (fun u =>
            { chat_id := u.chat_id
              home_name := m.homeTeam.name
              away_name := m.awayTeam.name
              home_score := home_score
              away_score := away_score
              scoring_team := scoring_team
              is_birmingham_goal := is_bir })
        else []
      (notifs, fun k => if k = match_id then some (home_score, away_score) else st k)

/-- Abbreviation for the source expression `score.get("home", 0) or 0`. -/
def observed_home (m : LiveMatch) : Int := pyOr0 m.score.home

/-- Abbreviation for the source expression `score.get("away", 0) or 0`. -/
def observed_away (m : LiveMatch) : Int := pyOr0 m.score.away

/-- Abbreviation for `self._live_scores.get(match_id, {"home": 0, "away": 0})`. -/
def prev_score (st : LiveScores) (mid : Nat) : Int × Int :=
  (st mid).getD (0, 0)

/-- The goal-detection condition of `_process_live_match`:
    `home_score > prev_home or away_score > prev_away`. -/
def goal_fired (m : LiveMatch) (st : LiveScores) (mid : Nat) : Prop :=
  observed_home m > (prev_score st mid).1 ∨ observed_away m > (prev_score st mid).2

instance (m : LiveMatch) (st : LiveScores) (mid : Nat) :
    Decidable (goal_fired m st mid) := by
  unfold goal_fired; infer_instance

/-- The notification `_process_live_match` builds for one user when a goal
    is detected: home side takes precedence when both sides increased. -/
def goal_notif (m : LiveMatch) (st : LiveScores) (mid : Nat) (u : UserRow) :
    GoalNotif :=
  { chat_id := u.chat_id
    home_name := m.homeTeam.name
    away_name := m.awayTeam.name
    home_score := observed_home m
    away_score := observed_away m
    scoring_team :=
      if observed_home m > (prev_score st mid).1
        then m.homeTeam.name else m.awayTeam.name
    is_birmingham_goal :=
      (if observed_home m > (prev_score st mid).1
        then m.homeTeam.id else m.awayTeam.id) = some BIRMINGHAM_TEAM_ID }

/-- `FootballAPIClient` defines no method `get_live_matches`
    (football_api.py lines 12-253), so `self.api.get_live_matches()` in
    scheduler.py line 261 raises AttributeError; the fetch is modelled as
    `none` (vs `some ms` for a gateway that returns matches). -/
def api_get_live_matches : Option (List LiveMatch) := none

/-- scheduler.py `check_live_scores`: read the goal-enabled users, return
    early if there are none (`if not users: return`), fetch the live
    matches — a `none` fetch is the raised AttributeError, caught by the
    surrounding `except` before any match is processed — then run
    `_process_live_match` over each match, threading `_live_scores`. -/
def check_live_scores (fetch : Option (List LiveMatch)) (db : Db)
    (st : LiveScores) : List GoalNotif × LiveScores :=
  let users := get_users_for_goal_notification db
  if users = [] then ([], st)
  else
    match fetch with
    | none => ([], st)
    | some ms =>
      ms.foldl (fun acc m =>
        let r := process_live_match m users acc.2
        (acc.1 ++ r.1, r.2)) ([], st)

/-! ## Reminder planner (scheduler.py `_schedule_reminders_for_user`) -/

/-- An upcoming match as read by the reminder planner: `match.get("id")`
    (absent modelled as `none`) and the kickoff instant parsed from
    `match.get("utcDate", "")` in epoch seconds (`none` when
    `datetime.fromisoformat` raises, which the `except` turns into a skip). -/
structure UpcomingMatch where
  id : Option Nat
  kickoff : Option Int
deriving Repr, DecidableEq

/-- A one-shot reminder job as added by `scheduler.add_job(..., 'date',
    run_date=reminder_time, args=[chat_id, match_info, reminder_minutes])`. -/
structure ReminderJob where
  chat_id : String
  match_id : Nat
  run_date : Int
  minutes : Int
deriving Repr, DecidableEq

/-- The `_match_jobs` registry, keyed by `f"reminder_{chat_id}_{match_id}"`,
    embedded as the set of (chat_id, match_id) pairs. -/
abbrev JobKeys := List (String × Nat)

/-- The `for match in matches:` loop body of `_schedule_reminders_for_user`:
    skip a falsy match id, skip when the job key is already registered,
    skip when the kickoff cannot be parsed, compute
    `reminder_time = kickoff - minutes` and schedule exactly when
    `now < reminder_time < now + 2h`, recording the key.  Returns the jobs
    added this pass and the updated registry. -/
def sched_reminder_loop (chat_id : String) (lead : Int) (now : Int) :
    List UpcomingMatch → JobKeys → List ReminderJob × JobKeys
  | [], jobs => ([], jobs)
  | m :: rest, jobs =>
    match m.id with
    | none => sched_reminder_loop chat_id lead now rest jobs
    | some match_id =>
      if match_id = 0 then sched_reminder_loop chat_id lead now rest jobs
      else if (chat_id, match_id) ∈ jobs then
        sched_reminder_loop chat_id lead now rest jobs
      else
        match m.kickoff with
        | none => sched_reminder_loop chat_id lead now rest jobs
        | some k =>
          let reminder_time := k - lead * 60
          if now < reminder_time ∧ reminder_time < now + 7200 then
            let r := sched_reminder_loop chat_id lead now rest
              ((chat_id, match_id) :: jobs)
            (⟨chat_id, match_id, reminder_time, lead⟩ :: r.1, r.2)
          else sched_reminder_loop chat_id lead now rest jobs

/-- scheduler.py `_schedule_reminders_for_user`: read
    `match_reminder_minutes`, return at once when it is ≤ 0, otherwise run
    the loop over the upcoming matches. -/
def schedule_reminders_for_user (user : UserRow) (now : Int)
    (upcoming : List UpcomingMatch) (jobs : JobKeys) :
    List ReminderJob × JobKeys :=
  let reminder_minutes := user.match_reminder_minutes
  if reminder_minutes ≤ 0 then ([], jobs)
  else sched_reminder_loop user.chat_id reminder_minutes now upcoming jobs

/-! ## Lineup detector (scheduler.py `check_lineups`, `_process_lineup`) -/

/-- One entry of a lineup list in the match details. -/
structure Player where
  name : String
  position : String
deriving Repr, DecidableEq

/-- One side of the match details (`homeTeam`/`awayTeam` with `lineup`). -/
structure DetailTeam where
  name : String
  lineup : List Player
deriving Repr, DecidableEq

/-- The result of `get_match_details` when it returns a truthy record. -/
structure MatchDetails where
  homeTeam : DetailTeam
  awayTeam : DetailTeam
deriving Repr, DecidableEq

/-- A match of today's list as read by `_process_lineup`: `match.get("id")`
    (possibly absent), `match.get("status")`, and the kickoff parsed from
    `utcDate` in epoch seconds (`none` for a parse failure, which the
    inner `except` turns into a return). -/
structure TodayMatch where
  id : Option Nat
  status : String
  kickoff : Option Int
deriving Repr, DecidableEq

/-- One lineup notification event target (`_send_lineup_notification`). -/
structure LineupNotif where
  chat_id : String
deriving Repr, DecidableEq

/-- The gateway responses a lineup-processing step sees: the current
    instant and the `get_match_details` results (keyed by the possibly
    absent match id, which Python would pass through; `none` is a falsy
    or failed response — `if not match_details: return`). -/
structure LineupEnv where
  now : Int
  details : Option Nat → Option MatchDetails

/-- scheduler.py `_process_lineup`: skip unless status is TIMED or
    SCHEDULED; skip when the id is already in `_lineup_sent`; skip when
    the kickoff does not parse or `time_until_match` (minutes) is `> 60 or
    < 0` (in seconds: `> 3600 or < 0`); fetch the details and skip a falsy
    result; skip — without marking sent — when both lineups are empty;
    otherwise notify every user in `users` and mark the id sent. -/
def process_lineup (env : LineupEnv) (m : TodayMatch) (users : List UserRow)
    (sent : List (Option Nat)) : List LineupNotif × List (Option Nat) :=
  if m.status ≠ "TIMED" ∧ m.status ≠ "SCHEDULED" then ([], sent)
  else if m.id ∈ sent then ([], sent)
  else
    match m.kickoff with
    | none => ([], sent)
    | some k =>
      if k - env.now > 3600 ∨ k - env.now < 0 then ([], sent)
      else
        match env.details m.id with
        | none => ([], sent)
        | some d =>
          if d.homeTeam.lineup = [] ∧ d.awayTeam.lineup = [] then ([], sent)
          else (users.map (fun u => ⟨u.chat_id⟩), m.id :: sent)

/-- A run of lineup-processing steps across any number of cycles:
    each step is one `_process_lineup` call with its own gateway
    environment, match record and user list, threading `_lineup_sent`.
    Counts the steps that dispatch a (non-empty) notification batch for a
    match with identifier `i`. -/
def lineup_fires (i : Option Nat) :
    List (LineupEnv × TodayMatch × List UserRow) → List (Option Nat) → Nat
  | [], _ => 0
  | (env, m, users) :: rest, sent =>
    let r := process_lineup env m users sent
    (if m.id = i ∧ r.1 ≠ [] then 1 else 0) + lineup_fires i rest r.2

/-- `FootballAPIClient` defines no method `get_today_matches`
    (football_api.py lines 12-253), so `self.api.get_today_matches()` in
    scheduler.py line 349 raises AttributeError; the fetch is modelled as
    `none`. -/
def api_get_today_matches : Option (List TodayMatch) := none

/-- scheduler.py `check_lineups`: read the lineup-enabled users, return
    early when there are none, fetch today's matches — a `none` fetch is
    the raised AttributeError, caught by the surrounding `except` before
    any match is processed — then run `_process_lineup` over each match,
    threading `_lineup_sent`. -/
def check_lineups (fetch : Option (List TodayMatch)) (env : LineupEnv)
    (db : Db) (sent : List (Option Nat)) :
    List LineupNotif × List (Option Nat) :=
  let users := get_users_for_lineup_notification db
  if users = [] then ([], sent)
  else
    match fetch with
    | none => ([], sent)
    | some ms =>
      ms.foldl (fun acc m =>
        let r := process_lineup env m users acc.2
        (acc.1 ++ r.1, r.2)) ([], sent)

/-! ## Helper lemmas -/

lemma chat_id_setSetting (u : UserRow) (f : SettingField) (v : Int) :
    (setSetting u f v).chat_id = u.chat_id := by cases f <;> rfl

lemma getSetting_setSetting (u : UserRow) (f : SettingField) (v : Int) :
    getSetting (setSetting u f v) f = v := by cases f <;> rfl

lemma get_user_cons (a : UserRow) (l : Db) (cid : String) :
    get_user (a :: l) cid
      = if a.chat_id == cid then some a else get_user l cid := by
  unfold get_user
  rw [List.find?_cons]
  cases h : a.chat_id == cid <;> simp [h]

lemma get_user_update (db : Db) (cid : String) (f : SettingField) (v : Int) :
    get_user (db.map fun u => if u.chat_id == cid then setSetting u f v else u) cid
      = (get_user db cid).map fun u => setSetting u f v := by
  induction db with
  | nil => rfl
  | cons a l ih =>
    rw [List.map_cons, get_user_cons, get_user_cons]
    by_cases h : a.chat_id == cid
    · simp only [if_pos h]
      rw [if_pos (by rw [chat_id_setSetting]; exact h)]
      rfl
    · simp only [if_neg h]
      exact ih

lemma map_no_match (db : Db) (cid : String) (g : UserRow → UserRow)
    (h : ∀ u ∈ db, u.chat_id ≠ cid) :
    (db.map fun u => if u.chat_id == cid then g u else u) = db := by
  induction db with
  | nil => rfl
  | cons a l ih =>
    rw [List.map_cons, if_neg (by simpa using h a (by simp)),
        ih (fun u hu => h u (List.mem_cons_of_mem _ hu))]

lemma toggle_setting_found (db : Db) (cid : String) (f : SettingField)
    (u : UserRow) (hu : get_user db cid = some u) :
    toggle_setting db cid f =
      (decide ((if getSetting u f ≠ 0 then (0:Int) else 1) ≠ 0),
       db.map fun r => if r.chat_id == cid then
         setSetting r f (if getSetting u f ≠ 0 then 0 else 1) else r) := by
  unfold toggle_setting
  rw [hu]

lemma process_live_match_eq (m : LiveMatch) (users : List UserRow)
    (st : LiveScores) (mid : Nat) (hid : m.id = some mid) (h0 : mid ≠ 0) :
    process_live_match m users st =
      ((if goal_fired m st mid then users.map (goal_notif m st mid) else []),
       fun k => if k = mid then some (observed_home m, observed_away m) else st k) := by
  unfold process_live_match
  rw [hid]
  simp only [h0, if_false, goal_fired, observed_home, observed_away, prev_score, goal_notif]
  rfl

lemma process_lineup_spec (env : LineupEnv) (m : TodayMatch)
    (users : List UserRow) (sent : List (Option Nat)) :
    process_lineup env m users sent = ([], sent) ∨
    ((m.status = "TIMED" ∨ m.status = "SCHEDULED") ∧ m.id ∉ sent ∧
     ∃ k d, m.kickoff = some k ∧ ¬(k - env.now > 3600 ∨ k - env.now < 0) ∧
       env.details m.id = some d ∧
       ¬(d.homeTeam.lineup = [] ∧ d.awayTeam.lineup = []) ∧
       process_lineup env m users sent
         = (users.map (fun u => ⟨u.chat_id⟩), m.id :: sent)) := by
  unfold process_lineup
  split
  · exact Or.inl rfl
  · rename_i hst
    split
    · exact Or.inl rfl
    · rename_i hmem
      split
      · exact Or.inl rfl
      · rename_i k hk
        split
        · exact Or.inl rfl
        · rename_i hwin
          split
          · exact Or.inl rfl
          · rename_i d hd
            split
            · exact Or.inl rfl
            · rename_i hlu
              refine Or.inr ⟨?_, hmem, k, d, hk, hwin, hd, hlu, rfl⟩
              rcases not_and_or.mp hst with h | h
              · exact Or.inl (not_not.mp h)
              · exact Or.inr (not_not.mp h)

lemma lineup_fires_of_mem (i : Nat)
    (steps : List (LineupEnv × TodayMatch × List UserRow)) :
    ∀ sent, some i ∈ sent → lineup_fires (some i) steps sent = 0 := by
  induction steps with
  | nil => intro sent _; rfl
  | cons s rest ih =>
    obtain ⟨env, m, users⟩ := s
    intro sent hmem
    show (if m.id = some i ∧ (process_lineup env m users sent).1 ≠ [] then 1 else 0)
        + lineup_fires (some i) rest (process_lineup env m users sent).2 = 0
    rcases process_lineup_spec env m users sent with h | ⟨_, hnot, _, _, _, _, _, _, h⟩
    · rw [h, if_neg (by simp), ih sent hmem]
    · have hne : m.id ≠ some i := fun hcon => hnot (hcon ▸ hmem)
      rw [h, if_neg (by simp [hne]), ih _ (List.mem_cons_of_mem _ hmem)]

lemma sched_loop_sound (chat : String) (lead now : Int) :
    ∀ (ms : List UpcomingMatch) (jobs : JobKeys),
      ∀ j ∈ (sched_reminder_loop chat lead now ms jobs).1,
        j.chat_id = chat ∧ j.minutes = lead ∧
        ∃ m ∈ ms, m.id = some j.match_id ∧ ∃ k, m.kickoff = some k ∧
          j.run_date = k - lead * 60 ∧ now < j.run_date ∧ j.run_date < now + 7200 := by
  intro ms
  induction ms with
  | nil =>
    intro jobs j hj
    simp [sched_reminder_loop] at hj
  | cons m rest ih =>
    intro jobs j hj
    obtain ⟨mi, mk⟩ := m
    have tail : ∀ jobs', j ∈ (sched_reminder_loop chat lead now rest jobs').1 →
        j.chat_id = chat ∧ j.minutes = lead ∧
        ∃ m ∈ (⟨mi, mk⟩ : UpcomingMatch) :: rest, m.id = some j.match_id ∧
          ∃ k, m.kickoff = some k ∧
          j.run_date = k - lead * 60 ∧ now < j.run_date ∧ j.run_date < now + 7200 := by
      intro jobs' hj'
      obtain ⟨hc, hl, m', hm', hrest⟩ := ih jobs' j hj'
      exact ⟨hc, hl, m', List.mem_cons_of_mem _ hm', hrest⟩
    cases mi with
    | none =>
      refine tail jobs ?_
      simpa only [sched_reminder_loop] using hj
    | some mid =>
      by_cases h0 : mid = 0
      · refine tail jobs ?_
        simpa only [sched_reminder_loop, h0, if_true] using hj
      · by_cases hjmem : (chat, mid) ∈ jobs
        · refine tail jobs ?_
          simpa only [sched_reminder_loop, h0, if_false, if_pos hjmem] using hj
        · cases mk with
          | none =>
            refine tail jobs ?_
            simpa only [sched_reminder_loop, h0, if_false, if_neg hjmem] using hj
          | some k =>
            by_cases hwin : now < k - lead * 60 ∧ k - lead * 60 < now + 7200
            · have hj' : j ∈ (⟨chat, mid, k - lead * 60, lead⟩ : ReminderJob) ::
                  (sched_reminder_loop chat lead now rest ((chat, mid) :: jobs)).1 := by
                simpa only [sched_reminder_loop, h0, if_false, if_neg hjmem,
                  if_pos hwin] using hj
              rcases List.mem_cons.mp hj' with hj'' | hj''
              · subst hj''
                exact ⟨rfl, rfl, ⟨some mid, some k⟩, List.mem_cons_self _ _,
                  rfl, k, rfl, rfl, hwin.1, hwin.2⟩
              · exact tail _ hj''
            · refine tail jobs ?_
              simpa only [sched_reminder_loop, h0, if_false, if_neg hjmem,
                if_neg hwin] using hj

lemma sched_loop_mem (chat : String) (lead now : Int) (mid : Nat) (h0 : mid ≠ 0) :
    ∀ (ms : List UpcomingMatch) (jobs : JobKeys),
      ((∃ j ∈ (sched_reminder_loop chat lead now ms jobs).1, j.match_id = mid) ↔
        ((chat, mid) ∉ jobs ∧ ∃ m ∈ ms, m.id = some mid ∧
          ∃ k, m.kickoff = some k ∧
            now < k - lead * 60 ∧ k - lead * 60 < now + 7200)) := by
  intro ms
  induction ms with
  | nil =>
    intro jobs
    simp [sched_reminder_loop]
  | cons m rest ih =>
    intro jobs
    obtain ⟨mi, mk⟩ := m
    cases mi with
    | none =>
      simp only [sched_reminder_loop]
      rw [ih jobs]
      simp
    | some mid' =>
      by_cases h0' : mid' = 0
      · simp only [sched_reminder_loop, h0', if_true]
        rw [ih jobs]
        simp only [List.mem_cons]
        constructor
        · rintro ⟨hnj, m', hm', hrest⟩
          exact ⟨hnj, m', Or.inr hm', hrest⟩
        · rintro ⟨hnj, m', hm' | hm', hmid, hrest⟩
          · subst hm'
            simp at hmid
            omega
          · exact ⟨hnj, m', hm', hmid, hrest⟩
      · by_cases hjmem : (chat, mid') ∈ jobs
        · by_cases heq : mid' = mid
          · subst heq
            simp only [sched_reminder_loop, h0', if_false, if_pos hjmem]
            rw [ih jobs]
            constructor
            · rintro ⟨hnj, _⟩
              exact absurd hjmem hnj
            · rintro ⟨hnj, _⟩
              exact absurd hjmem hnj
          · simp only [sched_reminder_loop, h0', if_false, if_pos hjmem]
            rw [ih jobs]
            simp only [List.mem_cons]
            constructor
            · rintro ⟨hnj, m', hm', hrest⟩
              exact ⟨hnj, m', Or.inr hm', hrest⟩
            · rintro ⟨hnj, m', hm' | hm', hmid, hrest⟩
              · subst hm'
                simp at hmid
                exact absurd hmid heq
              · exact ⟨hnj, m', hm', hmid, hrest⟩
        · cases mk with
          | none =>
            simp only [sched_reminder_loop, h0', if_false, if_neg hjmem]
            rw [ih jobs]
            simp only [List.mem_cons]
            constructor
            · rintro ⟨hnj, m', hm', hrest⟩
              exact ⟨hnj, m', Or.inr hm', hrest⟩
            · rintro ⟨hnj, m', hm' | hm', hmid, k, hk, hrest⟩
              · subst hm'
                simp at hk
              · exact ⟨hnj, m', hm', hmid, k, hk, hrest⟩
          | some k =>
            by_cases hwin : now < k - lead * 60 ∧ k - lead * 60 < now + 7200
            · simp only [sched_reminder_loop, h0', if_false, if_neg hjmem,
                if_pos hwin]
              by_cases heq : mid' = mid
              · subst heq
                constructor
                · intro _
                  exact ⟨hjmem, ⟨some mid', some k⟩, List.mem_cons_self _ _,
                    rfl, k, rfl, hwin⟩
                · intro _
                  exact ⟨⟨chat, mid', k - lead * 60, lead⟩,
                    List.mem_cons_self _ _, rfl⟩
              · constructor
                · rintro ⟨j, hj, hjmid⟩
                  rcases List.mem_cons.mp hj with hj' | hj'
                  · subst hj'
                    exact absurd hjmid heq
                  · obtain ⟨hnj, m', hm', hrest⟩ :=
                      (ih ((chat, mid') :: jobs)).mp ⟨j, hj', hjmid⟩
                    exact ⟨fun hc => hnj (List.mem_cons_of_mem _ hc), m',
                      List.mem_cons_of_mem _ hm', hrest⟩
                · rintro ⟨hnj, m', hm', hmid', hrest⟩
                  rcases List.mem_cons.mp hm' with hm'' | hm''
                  · subst hm''
                    simp at hmid'
                    exact absurd hmid' heq
                  · have hnj' : (chat, mid) ∉ (chat, mid') :: jobs := by
                      intro hc
                      rcases List.mem_cons.mp hc with hc' | hc'
                      · simp at hc'
                        exact heq hc'.symm
                      · exact hnj hc'
                    obtain ⟨j, hj, hjmid⟩ := (ih ((chat, mid') :: jobs)).mpr
                      ⟨hnj', m', hm'', hmid', hrest⟩
                    exact ⟨j, List.mem_cons_of_mem _ hj, hjmid⟩
            · simp only [sched_reminder_loop, h0', if_false, if_neg hjmem,
                if_neg hwin]
              rw [ih jobs]
              simp only [List.mem_cons]
              constructor
              · rintro ⟨hnj, m', hm', hrest⟩
                exact ⟨hnj, m', Or.inr hm', hrest⟩
              · rintro ⟨hnj, m', hm' | hm', hmid', k', hk', hw1, hw2⟩
                · subst hm'
                  simp at hk'
                  subst hk'
                  exact absurd ⟨hw1, hw2⟩ hwin
                · exact ⟨hnj, m', hm', hmid', k', hk', hw1, hw2⟩

/-! ## Claim theorems -/

/-- Claim C1: the gateway client `FootballAPIClient` defines no
    `get_live_matches`, `get_today_matches` or `get_match_details` method,
    so every invocation of the live-score cycle (`check_live_scores`) and
    of the lineup cycle (`check_lineups`) in which at least one subscriber
    has the corresponding notification enabled raises AttributeError at
    the gateway call, which the cycle's top-level handler catches before
    any match is processed: no notification is sent and the detector state
    (`_live_scores`, `_lineup_sent`) is left unchanged. -/
theorem missing_gateway_methods_abort_cycles :
    ("get_live_matches" ∉ footballAPIClientMethods ∧
     "get_today_matches" ∉ footballAPIClientMethods ∧
     "get_match_details" ∉ footballAPIClientMethods) ∧
    (∀ (db : Db) (st : LiveScores), get_users_for_goal_notification db ≠ [] →
      check_live_scores api_get_live_matches db st = ([], st)) ∧
    (∀ (env : LineupEnv) (db : Db) (sent : List (Option Nat)),
      get_users_for_lineup_notification db ≠ [] →
      check_lineups api_get_today_matches env db sent = ([], sent)) := by
  refine ⟨by decide, ?_, ?_⟩
  · intro db st h
    simp only [check_live_scores, api_get_live_matches, ite_self]
  · intro env db sent h
    simp only [check_lineups, api_get_today_matches, ite_self]

/-- Concrete instance of claim C1: one subscriber with every notification
    enabled; both cycles send nothing and leave the state untouched. -/
theorem missing_gateway_methods_abort_cycles_witness :
    get_users_for_goal_notification [⟨"alice", none, 1, 9, 30, 1, 1⟩] ≠ [] ∧
    check_live_scores api_get_live_matches [⟨"alice", none, 1, 9, 30, 1, 1⟩]
        (fun _ => none) = ([], fun _ => none) ∧
    get_users_for_lineup_notification [⟨"alice", none, 1, 9, 30, 1, 1⟩] ≠ [] ∧
    check_lineups api_get_today_matches ⟨0, fun _ => none⟩
        [⟨"alice", none, 1, 9, 30, 1, 1⟩] [] = ([], []) :=
  ⟨by decide,
   missing_gateway_methods_abort_cycles.2.1 [⟨"alice", none, 1, 9, 30, 1, 1⟩]
     (fun _ => none) (by decide),
   by decide,
   missing_gateway_methods_abort_cycles.2.2 ⟨0, fun _ => none⟩
     [⟨"alice", none, 1, 9, 30, 1, 1⟩] [] (by decide)⟩

/-- Claim C2 (refuted — the code has a slip): the digest filter compares
    `korea_time[:5]`, which is `"YYYY-"` of the `"%Y-%m-%d %H:%M"` string
    produced by `format_match_info`, against `now.strftime("%m/%d")` (the
    code's own comment says `# MM/DD`), so no match ever qualifies.  At the
    claim's own scenario — digest for 2026-10-12 with kickoffs today 20:00,
    tomorrow 03:00 and tomorrow 14:00 Korea time — the digest is empty
    instead of containing the first two matches. -/
theorem morning_digest_format_mismatch :
    build_today_matches 10 12 10 13
      [⟨2026, 10, 12, 20, 0⟩, ⟨2026, 10, 13, 3, 0⟩, ⟨2026, 10, 13, 14, 0⟩] = [] ∧
    slice5 (korea_time_string ⟨2026, 10, 12, 20, 0⟩) = "2026-" ∧
    strftime_md 10 12 = "10/12" := by decide

/-- Claim C3: one processing of a live match poll against the stored score
    (default (0,0)): the stored entry is always overwritten with the
    observed score; when neither side exceeds the stored score no goal
    notification is sent; when a side exceeds it, exactly one notification
    per user in the goal-enabled list is sent, attributed to the home team
    whenever the home score increased (home precedence) and to the away
    team otherwise. -/
theorem goal_detection_per_poll (m : LiveMatch) (users : List UserRow)
    (st : LiveScores) (mid : Nat) (hid : m.id = some mid) (h0 : mid ≠ 0) :
    (process_live_match m users st).2 mid
        = some (observed_home m, observed_away m) ∧
    (∀ k, k ≠ mid → (process_live_match m users st).2 k = st k) ∧
    (¬ goal_fired m st mid → (process_live_match m users st).1 = []) ∧
    (goal_fired m st mid →
      (process_live_match m users st).1 = users.map (goal_notif m st mid)) := by
  rw [process_live_match_eq m users st mid hid h0]
  exact ⟨by simp, fun k hk => by simp [hk], fun h => by simp [h], fun h => by simp [h]⟩

/-- Concrete instance of claim C3: stored (1,0) with poll (1,0) sends
    nothing and stores (1,0); stored (1,0) with poll (2,0) sends one
    home-attributed notification to the goal-enabled subscriber and
    stores (2,0). -/
theorem goal_detection_per_poll_witness :
    ((process_live_match ⟨some 7, ⟨some 332, "A"⟩, ⟨some 9, "B"⟩, ⟨some 1, some 0⟩⟩
        [⟨"alice", none, 1, 9, 30, 1, 1⟩]
        (fun k => if k = 7 then some (1, 0) else none)).1 = [] ∧
     (process_live_match ⟨some 7, ⟨some 332, "A"⟩, ⟨some 9, "B"⟩, ⟨some 1, some 0⟩⟩
        [⟨"alice", none, 1, 9, 30, 1, 1⟩]
        (fun k => if k = 7 then some (1, 0) else none)).2 7 = some (1, 0)) ∧
    ((process_live_match ⟨some 7, ⟨some 332, "A"⟩, ⟨some 9, "B"⟩, ⟨some 2, some 0⟩⟩
        [⟨"alice", none, 1, 9, 30, 1, 1⟩]
        (fun k => if k = 7 then some (1, 0) else none)).1
        = [⟨"alice", "A", "B", 2, 0, "A", true⟩] ∧
     (process_live_match ⟨some 7, ⟨some 332, "A"⟩, ⟨some 9, "B"⟩, ⟨some 2, some 0⟩⟩
        [⟨"alice", none, 1, 9, 30, 1, 1⟩]
        (fun k => if k = 7 then some (1, 0) else none)).2 7 = some (2, 0)) := by
  constructor
  · exact ⟨(goal_detection_per_poll _ _ _ 7 rfl (by decide)).2.2.1 (by decide),
      (goal_detection_per_poll _ _ _ 7 rfl (by decide)).1⟩
  · exact ⟨(goal_detection_per_poll _ _ _ 7 rfl (by decide)).2.2.2 (by decide),
      (goal_detection_per_poll _ _ _ 7 rfl (by decide)).1⟩

/-- Claim C4: for every match identifier and every sequence of
    lineup-processing steps within one process lifetime — each with its
    own gateway responses, match record and user list — at most one
    lineup notification batch is dispatched for that identifier: once the
    identifier is recorded in `_lineup_sent`, every later processing of
    that match is a no-op. -/
theorem lineup_notification_at_most_once (i : Nat)
    (steps : List (LineupEnv × TodayMatch × List UserRow))
    (sent : List (Option Nat)) : lineup_fires (some i) steps sent ≤ 1 := by
  induction steps generalizing sent with
  | nil => simp [lineup_fires]
  | cons s rest ih =>
    obtain ⟨env, m, users⟩ := s
    show (if m.id = some i ∧ (process_lineup env m users sent).1 ≠ [] then 1 else 0)
        + lineup_fires (some i) rest (process_lineup env m users sent).2 ≤ 1
    by_cases hf : m.id = some i ∧ (process_lineup env m users sent).1 ≠ []
    · rcases process_lineup_spec env m users sent with h | ⟨_, _, _, _, _, _, _, _, h⟩
      · rw [h] at hf
        simp at hf
      · rw [if_pos hf, lineup_fires_of_mem i rest _
          (by rw [h]; exact hf.1 ▸ List.mem_cons_self _ _)]
    · rw [if_neg hf]
      simpa using ih _

/-- Claim C5: a one-shot reminder job for the pair (subscriber, match) is
    created by `_schedule_reminders_for_user` iff `reminderLeadMinutes` is
    strictly positive, no job is registered for the pair, and some listed
    match with that identifier has `now < kickoff - lead < now + 2h`
    (times in seconds, lead in minutes); every created job fires at
    `kickoff - lead` inside that window, for that subscriber and lead. -/
theorem reminder_job_iff_window (user : UserRow) (now : Int)
    (upcoming : List UpcomingMatch) (jobs : JobKeys) (mid : Nat)
    (h0 : mid ≠ 0) :
    ((∃ j ∈ (schedule_reminders_for_user user now upcoming jobs).1,
        j.match_id = mid) ↔
      (0 < user.match_reminder_minutes ∧ (user.chat_id, mid) ∉ jobs ∧
       ∃ m ∈ upcoming, m.id = some mid ∧ ∃ k, m.kickoff = some k ∧
         now < k - user.match_reminder_minutes * 60 ∧
         k - user.match_reminder_minutes * 60 < now + 7200)) ∧
    (∀ j ∈ (schedule_reminders_for_user user now upcoming jobs).1,
       j.chat_id = user.chat_id ∧ j.minutes = user.match_reminder_minutes ∧
       ∃ m ∈ upcoming, m.id = some j.match_id ∧ ∃ k, m.kickoff = some k ∧
         j.run_date = k - user.match_reminder_minutes * 60 ∧
         now < j.run_date ∧ j.run_date < now + 7200) := by
  simp only [schedule_reminders_for_user]
  by_cases hl : user.match_reminder_minutes ≤ 0
  · rw [if_pos hl]
    constructor
    · constructor
      · rintro ⟨j, hj, _⟩
        simp at hj
      · rintro ⟨hpos, _⟩
        omega
    · intro j hj
      simp at hj
  · rw [if_neg hl]
    refine ⟨?_, sched_loop_sound user.chat_id _ now upcoming jobs⟩
    rw [sched_loop_mem user.chat_id _ now mid h0 upcoming jobs]
    constructor
    · intro h
      exact ⟨by omega, h⟩
    · rintro ⟨_, h⟩
      exact h

/-- Concrete instance of claim C5: lead 30 minutes, kickoff 90 minutes
    from now (5400 s) yields exactly one job firing 60 minutes from now
    (3600 s); kickoff 4 hours from now (14400 s) yields no job. -/
theorem reminder_job_iff_window_witness :
    (∃ j ∈ (schedule_reminders_for_user ⟨"alice", none, 1, 9, 30, 1, 1⟩ 0
        [⟨some 3, some 5400⟩, ⟨some 4, some 14400⟩] []).1, j.match_id = 3) ∧
    (¬ ∃ j ∈ (schedule_reminders_for_user ⟨"alice", none, 1, 9, 30, 1, 1⟩ 0
        [⟨some 3, some 5400⟩, ⟨some 4, some 14400⟩] []).1, j.match_id = 4) ∧
    (schedule_reminders_for_user ⟨"alice", none, 1, 9, 30, 1, 1⟩ 0
        [⟨some 3, some 5400⟩, ⟨some 4, some 14400⟩] []).1
      = [⟨"alice", 3, 3600, 30⟩] := by
  refine ⟨?_, ?_, by decide⟩
  · exact (reminder_job_iff_window ⟨"alice", none, 1, 9, 30, 1, 1⟩ 0
      [⟨some 3, some 5400⟩, ⟨some 4, some 14400⟩] [] 3 (by decide)).1.mpr
      ⟨by decide, by decide, ⟨some 3, some 5400⟩, by decide, rfl, 5400, rfl,
        by decide, by decide⟩
  · intro h
    exact absurd ((reminder_job_iff_window ⟨"alice", none, 1, 9, 30, 1, 1⟩ 0
      [⟨some 3, some 5400⟩, ⟨some 4, some 14400⟩] [] 4 (by decide)).1.mp h)
      (by decide)

/-- Claim C6: the lineup cycle skips a match whose status is not SCHEDULED
    or TIMED, whose minutes-until-kickoff is negative or above 60 (above
    3600 in seconds), or whose identifier is already marked sent; and when
    the details are fetched but both lineups are empty, the match is
    skipped without being marked sent, so it stays eligible for a retry. -/
theorem lineup_skip_conditions :
    (∀ (env : LineupEnv) (m : TodayMatch) (users : List UserRow) sent,
       m.status ≠ "TIMED" ∧ m.status ≠ "SCHEDULED" →
       process_lineup env m users sent = ([], sent)) ∧
    (∀ (env : LineupEnv) (m : TodayMatch) (users : List UserRow) sent k,
       m.kickoff = some k → (k - env.now > 3600 ∨ k - env.now < 0) →
       process_lineup env m users sent = ([], sent)) ∧
    (∀ (env : LineupEnv) (m : TodayMatch) (users : List UserRow) sent,
       m.id ∈ sent → process_lineup env m users sent = ([], sent)) ∧
    (∀ (env : LineupEnv) (m : TodayMatch) (users : List UserRow) sent i k d,
       m.id = some i → m.kickoff = some k →
       0 ≤ k - env.now → k - env.now ≤ 3600 →
       env.details (some i) = some d →
       d.homeTeam.lineup = [] → d.awayTeam.lineup = [] →
       process_lineup env m users sent = ([], sent)) := by
  refine ⟨?_, ?_, ?_, ?_⟩
  · intro env m users sent h
    unfold process_lineup
    rw [if_pos h]
  · intro env m users sent k hk hwin
    rcases process_lineup_spec env m users sent with h | ⟨_, _, _, _, hk', hwin', _, _, _⟩
    · exact h
    · rw [hk] at hk'
      cases hk'
      exact absurd hwin hwin'
  · intro env m users sent hmem
    rcases process_lineup_spec env m users sent with h | ⟨_, hnot, _⟩
    · exact h
    · exact absurd hmem hnot
  · intro env m users sent i k d hid hk h1 h2 hd hhl hal
    rcases process_lineup_spec env m users sent with h | ⟨_, _, _, _, _, _, hd', hlu, _⟩
    · exact h
    · rw [hid] at hd'
      rw [hd] at hd'
      cases hd'
      exact absurd ⟨hhl, hal⟩ hlu

/-- Concrete instances of claim C6: a LIVE match, a TIMED match 9999 s
    away, an already-sent match, and a match whose details carry two
    empty lineups are all skipped with the sent set unchanged. -/
theorem lineup_skip_conditions_witness :
    process_lineup ⟨0, fun _ => some ⟨⟨"H", []⟩, ⟨"A", []⟩⟩⟩
      ⟨some 1, "IN_PLAY", some 100⟩ [⟨"alice", none, 1, 9, 30, 1, 1⟩] [] = ([], []) ∧
    process_lineup ⟨0, fun _ => some ⟨⟨"H", []⟩, ⟨"A", []⟩⟩⟩
      ⟨some 1, "TIMED", some 9999⟩ [⟨"alice", none, 1, 9, 30, 1, 1⟩] [] = ([], []) ∧
    process_lineup ⟨0, fun _ => some ⟨⟨"H", []⟩, ⟨"A", []⟩⟩⟩
      ⟨some 1, "TIMED", some 100⟩ [⟨"alice", none, 1, 9, 30, 1, 1⟩] [some 1]
      = ([], [some 1]) ∧
    process_lineup ⟨0, fun _ => some ⟨⟨"H", []⟩, ⟨"A", []⟩⟩⟩
      ⟨some 1, "TIMED", some 100⟩ [⟨"alice", none, 1, 9, 30, 1, 1⟩] [] = ([], []) :=
  ⟨lineup_skip_conditions.1 _ _ _ _ ⟨by decide, by decide⟩,
   lineup_skip_conditions.2.1 _ _ _ _ 9999 rfl (by decide),
   lineup_skip_conditions.2.2.1 _ _ _ _ (by decide),
   lineup_skip_conditions.2.2.2 _ _ _ _ 1 100 ⟨⟨"H", []⟩, ⟨"A", []⟩⟩
     rfl rfl (by decide) (by decide) rfl rfl rfl⟩

/-- Claim C7: for an existing subscriber and a settings field holding a
    boolean value (0 or 1, the only values the store's own API writes to
    the boolean columns), toggling twice restores the field's stored value,
    and the second call returns the field's original boolean value. -/
theorem toggle_setting_involution (db : Db) (cid : String) (f : SettingField)
    (u : UserRow) (hu : get_user db cid = some u)
    (hb : getSetting u f = 0 ∨ getSetting u f = 1) :
    (toggle_setting (toggle_setting db cid f).2 cid f).1
        = decide (getSetting u f ≠ 0) ∧
    ∃ u2, get_user (toggle_setting (toggle_setting db cid f).2 cid f).2 cid
        = some u2 ∧ getSetting u2 f = getSetting u f := by
  have e1 := toggle_setting_found db cid f u hu
  have hget1 : get_user (toggle_setting db cid f).2 cid
      = some (setSetting u f (if getSetting u f ≠ 0 then 0 else 1)) := by
    rw [e1, get_user_update, hu]
    rfl
  have e2 := toggle_setting_found (toggle_setting db cid f).2 cid f _ hget1
  have hget2 : get_user (toggle_setting (toggle_setting db cid f).2 cid f).2 cid
      = some (setSetting (setSetting u f (if getSetting u f ≠ 0 then 0 else 1)) f
          (if getSetting (setSetting u f (if getSetting u f ≠ 0 then 0 else 1)) f ≠ 0
            then 0 else 1)) := by
    rw [e2, get_user_update, hget1]
    rfl
  refine ⟨?_, ?_⟩
  · rw [e2, getSetting_setSetting]
    rcases hb with h | h <;> simp [h]
  · refine ⟨_, hget2, ?_⟩
    rw [getSetting_setSetting, getSetting_setSetting]
    rcases hb with h | h <;> simp [h]

/-- Concrete instance of claim C7: toggling `goal_notification` (stored
    value 1) twice for subscriber "alice" returns true on the second call
    and restores the stored value 1. -/
theorem toggle_setting_involution_witness :
    (toggle_setting (toggle_setting [⟨"alice", none, 1, 9, 30, 1, 1⟩] "alice"
        SettingField.goalNotification).2 "alice" SettingField.goalNotification).1
      = true ∧
    ∃ u2, get_user (toggle_setting (toggle_setting [⟨"alice", none, 1, 9, 30, 1, 1⟩]
        "alice" SettingField.goalNotification).2 "alice"
        SettingField.goalNotification).2 "alice" = some u2 ∧
      getSetting u2 SettingField.goalNotification = 1 := by
  have h := toggle_setting_involution [⟨"alice", none, 1, 9, 30, 1, 1⟩] "alice"
    SettingField.goalNotification ⟨"alice", none, 1, 9, 30, 1, 1⟩ (by decide)
    (Or.inr rfl)
  exact ⟨h.1, h.2⟩

/-- Claim C8: the morning-hour query returns exactly the subscribers whose
    `morning_notification` flag is set (stored 1) and whose
    `morning_notification_hour` equals the requested hour, whatever the
    store contents. -/
theorem morning_hour_query_exact (db : Db) (h : Int) (u : UserRow) :
    u ∈ get_users_for_morning_notification db h ↔
      u ∈ db ∧ u.morning_notification = 1 ∧ u.morning_notification_hour = h := by
  simp [get_users_for_morning_notification, List.mem_filter]

/-- Claim C9: a settings update (any field, via the shared UPDATE shape of
    the five `update_*` functions) against an identifier with no record
    returns false and leaves the store unchanged; an update returns true
    exactly when a record with that identifier exists; and `toggle_setting`
    on a missing identifier returns false without touching the store. -/
theorem missing_subscriber_updates_noop :
    (∀ (db : Db) (cid : String) (f : SettingField) (v : Int),
       (∀ u ∈ db, u.chat_id ≠ cid) → update_rows db cid f v = (false, db)) ∧
    (∀ (db : Db) (cid : String) (f : SettingField) (v : Int),
       ((update_rows db cid f v).1 = true ↔ ∃ u ∈ db, u.chat_id = cid)) ∧
    (∀ (db : Db) (cid : String) (f : SettingField),
       get_user db cid = none → toggle_setting db cid f = (false, db)) := by
  refine ⟨?_, ?_, ?_⟩
  · intro db cid f v h
    unfold update_rows
    rw [map_no_match db cid _ h]
    refine Prod.ext ?_ rfl
    simp only [List.any_eq_false]
    intro u hu
    simpa using h u hu
  · intro db cid f v
    simp [update_rows, List.any_eq_true]
  · intro db cid f h
    unfold toggle_setting
    rw [h]

/-- Concrete instance of claim C9: against the missing identifier "bob",
    an update and a toggle both return false and leave the single-row
    store unchanged; against the existing "alice" the update returns
    true. -/
theorem missing_subscriber_updates_noop_witness :
    update_rows [⟨"alice", none, 1, 9, 30, 1, 1⟩] "bob"
        SettingField.morningNotification 0
      = (false, [⟨"alice", none, 1, 9, 30, 1, 1⟩]) ∧
    (update_rows [⟨"alice", none, 1, 9, 30, 1, 1⟩] "alice"
        SettingField.goalNotification 0).1 = true ∧
    toggle_setting [⟨"alice", none, 1, 9, 30, 1, 1⟩] "bob"
        SettingField.goalNotification
      = (false, [⟨"alice", none, 1, 9, 30, 1, 1⟩]) :=
  ⟨missing_subscriber_updates_noop.1 [⟨"alice", none, 1, 9, 30, 1, 1⟩] "bob" _ 0
     (by decide),
   (missing_subscriber_updates_noop.2.1 [⟨"alice", none, 1, 9, 30, 1, 1⟩]
     "alice" _ 0).mpr ⟨⟨"alice", none, 1, 9, 30, 1, 1⟩, by decide, rfl⟩,
   missing_subscriber_updates_noop.2.2 [⟨"alice", none, 1, 9, 30, 1, 1⟩] "bob" _
     (by decide)⟩

/-- Claim C10: a live poll with missing or null score fields is coerced to
    (0,0); when no observed side exceeds the stored score (in particular
    when a side is strictly lower, as in such a coerced poll) no goal
    notification is sent but the stored entry is still overwritten with the
    lower observed values; a later poll restoring the true higher score
    then fires a fresh notification per goal-enabled subscriber for goals
    already reported. -/
theorem score_regression_retrigger :
    (∀ m : LiveMatch, m.score.home = none → m.score.away = none →
       observed_home m = 0 ∧ observed_away m = 0) ∧
    (∀ (m : LiveMatch) (users : List UserRow) (st : LiveScores) (mid : Nat),
       m.id = some mid → mid ≠ 0 →
       observed_home m ≤ (prev_score st mid).1 →
       observed_away m ≤ (prev_score st mid).2 →
       (observed_home m < (prev_score st mid).1 ∨
         observed_away m < (prev_score st mid).2) →
       (process_live_match m users st).1 = [] ∧
       (process_live_match m users st).2 mid
          = some (observed_home m, observed_away m)) ∧
    (∀ (m1 m2 : LiveMatch) (users : List UserRow) (st : LiveScores)
        (mid : Nat) (ph pa : Int),
       m1.id = some mid → mid ≠ 0 →
       m1.score.home = none → m1.score.away = none →
       m2.id = some mid →
       m2.score.home = some ph → m2.score.away = some pa →
       st mid = some (ph, pa) → 0 < ph → 0 ≤ pa →
       (process_live_match m1 users st).1 = [] ∧
       (process_live_match m1 users st).2 mid = some (0, 0) ∧
       (process_live_match m2 users (process_live_match m1 users st).2).1
          = users.map (goal_notif m2 (process_live_match m1 users st).2 mid)) := by
  refine ⟨?_, ?_, ?_⟩
  · intro m hh ha
    simp [observed_home, observed_away, hh, ha, pyOr0]
  · intro m users st mid hid h0 hle1 hle2 _hlow
    rw [process_live_match_eq m users st mid hid h0]
    constructor
    · rw [if_neg]
      simp only [goal_fired, not_or, not_lt]
      exact ⟨hle1, hle2⟩
    · simp
  · intro m1 m2 users st mid ph pa hid1 h0 hh1 ha1 hid2 hh2 ha2 hst hph hpa
    have hobs1 : observed_home m1 = 0 ∧ observed_away m1 = 0 := by
      simp [observed_home, observed_away, hh1, ha1, pyOr0]
    have e1 := process_live_match_eq m1 users st mid hid1 h0
    have hnf1 : ¬ goal_fired m1 st mid := by
      simp only [goal_fired, prev_score, hst, hobs1.1, hobs1.2, not_or, not_lt]
      constructor
      · simpa using le_of_lt hph
      · simpa using hpa
    have hst1 : (process_live_match m1 users st).2 mid = some (0, 0) := by
      rw [e1]
      simp [hobs1.1, hobs1.2]
    refine ⟨by rw [e1]; simp [hnf1], hst1, ?_⟩
    have hobs2h : observed_home m2 = ph := by
      simp only [observed_home, hh2, pyOr0]
      rw [if_neg (by omega)]
    have hf2 : goal_fired m2 (process_live_match m1 users st).2 mid := by
      simp only [goal_fired, prev_score, hst1, hobs2h]
      exact Or.inl (by simpa using hph)
    rw [process_live_match_eq m2 users _ mid hid2 h0, if_pos hf2]

/-- Concrete instance of claim C10: stored (1,0), a poll with null score
    fields sends nothing and stores (0,0); the next poll with the true
    score (1,0) again fires a home-attributed notification to the
    goal-enabled subscriber. -/
theorem score_regression_retrigger_witness :
    (process_live_match ⟨some 7, ⟨some 332, "A"⟩, ⟨some 9, "B"⟩, ⟨none, none⟩⟩
        [⟨"alice", none, 1, 9, 30, 1, 1⟩]
        (fun k => if k = 7 then some (1, 0) else none)).1 = [] ∧
    (process_live_match ⟨some 7, ⟨some 332, "A"⟩, ⟨some 9, "B"⟩, ⟨none, none⟩⟩
        [⟨"alice", none, 1, 9, 30, 1, 1⟩]
        (fun k => if k = 7 then some (1, 0) else none)).2 7 = some (0, 0) ∧
    (process_live_match ⟨some 7, ⟨some 332, "A"⟩, ⟨some 9, "B"⟩, ⟨some 1, some 0⟩⟩
        [⟨"alice", none, 1, 9, 30, 1, 1⟩]
        ((process_live_match ⟨some 7, ⟨some 332, "A"⟩, ⟨some 9, "B"⟩, ⟨none, none⟩⟩
          [⟨"alice", none, 1, 9, 30, 1, 1⟩]
          (fun k => if k = 7 then some (1, 0) else none)).2)).1
      = [⟨"alice", "A", "B", 1, 0, "A", true⟩] := by
  have h := score_regression_retrigger.2.2
    ⟨some 7, ⟨some 332, "A"⟩, ⟨some 9, "B"⟩, ⟨none, none⟩⟩
    ⟨some 7, ⟨some 332, "A"⟩, ⟨some 9, "B"⟩, ⟨some 1, some 0⟩⟩
    [⟨"alice", none, 1, 9, 30, 1, 1⟩]
    (fun k => if k = 7 then some (1, 0) else none) 7 1 0
    rfl (by decide) rfl rfl rfl rfl rfl (by decide) (by decide) (by decide)
  exact ⟨h.1, h.2.1, h.2.2⟩

end Birmingham
